import Mathlib

/-!
Verification of the MediPresence hospital-management system's authentication
core and frontend behaviour.

The repository consists of a PostgreSQL schema (`scripts/init_db.sql`), a
Next.js frontend (`pages/index.tsx`, `pages/dashboard.tsx`) and a FastAPI
backend (`api/index.py`, `api/auth.py`, `api/db.py`).  The backend sources are
not in the repository snapshot, so the Auth Service operations (Register,
Login, Authenticate, Authorize) are modelled from the specification, while the
Credential Store shape follows `init_db.sql` and the frontend definitions
follow the two `.tsx` files line by line.
-/

namespace MediPresence

/-- The fixed role enumeration (spec §3 and the frontend role select in
`pages/index.tsx` lines 86-97): admin, doctor, nurse, receptionist, staff. -/
def validRoles : List String := ["admin", "doctor", "nurse", "receptionist", "staff"]

/-- Modelled from the spec: a salted one-way password hash (the stored
`hashed_password` column).  Real implementations store salt and digest in one
opaque string (as bcrypt does); the model keeps them as the two recoverable
components.  `mixHash` stands for the one-way function applied to salt and
password. -/
structure HashedPassword where
  salt : String
  digest : String
deriving DecidableEq, Repr

/-- Model of the one-way digest computation over salt and password. -/
def mixHash (salt pw : String) : String := salt ++ "$" ++ pw

/-- Hash a password with a given salt (spec §4.1: irreversibly hashed, salted). -/
def hashPassword (salt pw : String) : HashedPassword := ⟨salt, mixHash salt pw⟩

/-- Modelled from the spec: verification recomputes the hash with the stored
salt and compares it against the stored digest. -/
def verifyPassword (pw : String) (h : HashedPassword) : Bool :=
  h.digest == mixHash h.salt pw

/-- A row of the `users` table (`init_db.sql` lines 5-14). -/
structure UserRow where
  id : Nat
  username : String
  email : String
  hashed_password : HashedPassword
  role : String
  full_name : String
  is_active : Bool
deriving DecidableEq, Repr

/-- The Credential Store: the list of `users` rows. -/
abbrev Store := List UserRow

/-- Whether a username is already taken (the `username UNIQUE` lookup). -/
def usernameExists (s : Store) (u : String) : Bool :=
  s.any fun r => r.username == u

/-- Whether an email is already taken (the `email UNIQUE` lookup). -/
def emailExists (s : Store) (e : String) : Bool :=
  s.any fun r => r.email == e

/-- Lookup of a user row by username. -/
def findUser (s : Store) (u : String) : Option UserRow :=
  s.find? fun r => r.username == u

/-- Modelled from the spec: a Session Token carrying subject id, role,
issued-at, expiry and a signature over those claims (spec §3 and §4.1 token
format). -/
structure Token where
  sub : Nat
  role : String
  iat : Nat
  exp : Nat
  sig : String
deriving DecidableEq, Repr

/-- Serialization of the token claims that get signed. -/
def encodeClaims (sub : Nat) (role : String) (iat expiry : Nat) : String :=
  toString sub ++ "." ++ role ++ "." ++ toString iat ++ "." ++ toString expiry

/-- Model of the signing primitive keyed by the process-wide secret. -/
def sign (key payload : String) : String := key ++ "/" ++ payload

/-- Issue a token at time `now` with the given lifetime, signed with `key`. -/
def mkToken (key : String) (sub : Nat) (role : String) (now lifetime : Nat) : Token :=
  ⟨sub, role, now, now + lifetime, sign key (encodeClaims sub role now (now + lifetime))⟩

/-- The error taxonomy of spec §7. -/
inductive AuthError where
  | ValidationError
  | Conflict
  | Unauthorized
  | Forbidden
  | Expired
deriving DecidableEq, Repr

/-- A successful auth response: the issued token plus the public projection
of the user (identity fields, never the hash). -/
structure AuthResponse where
  token : Token
  id : Nat
  username : String
  email : String
  role : String
  full_name : String
deriving DecidableEq, Repr

/-- Build the response for a user row: token plus public projection. -/
def respOfRow (key : String) (now lifetime : Nat) (row : UserRow) : AuthResponse :=
  ⟨mkToken key row.id row.role now lifetime, row.id, row.username, row.email,
    row.role, row.full_name⟩

/-- The body of a register request (spec §6). -/
structure RegisterRequest where
  username : String
  email : String
  password : String
  full_name : String
  role : String
deriving DecidableEq, Repr

/-- Required fields are non-missing (spec §4.1: `ValidationError` when
required fields are missing; password must be non-empty). -/
def requiredFieldsPresent (req : RegisterRequest) : Bool :=
  !(req.username == "") && !(req.password == "") && !(req.email == "")
    && !(req.full_name == "")

/-- The row a successful registration inserts: fresh id, hashed password,
active flag defaulted to true (`init_db.sql` line 12). -/
def mkNewRow (salt : String) (s : Store) (req : RegisterRequest) : UserRow :=
  ⟨s.length + 1, req.username, req.email, hashPassword salt req.password,
    req.role, req.full_name, true⟩

/-- Modelled from the spec: Register (spec §4.1).  Fails with `Conflict` when
username or email already exists (the store's uniqueness enforcement is
authoritative, spec §5); fails with `ValidationError` when required fields
are missing or the role is outside the fixed enumeration (the §3 invariant
that role must be one of the enumeration values); otherwise inserts one new
row with the password hashed under `salt` and returns token plus public
projection.  The result pairs the post-state of the store with the outcome. -/
def register (key : String) (now lifetime : Nat) (salt : String) (s : Store)
    (req : RegisterRequest) : Store × Except AuthError AuthResponse :=
  if usernameExists s req.username || emailExists s req.email then
    (s, Except.error AuthError.Conflict)
  else if !(requiredFieldsPresent req) || !(validRoles.contains req.role) then
    (s, Except.error AuthError.ValidationError)
  else
    (s ++ [mkNewRow salt s req],
      Except.ok (respOfRow key now lifetime (mkNewRow salt s req)))

/-- Modelled from the spec: Login (spec §4.1).  Username must exist and be
active and the supplied password must verify against the stored hash; any
failure is the single undifferentiated `Unauthorized`.  No store change. -/
def login (key : String) (now lifetime : Nat) (s : Store)
    (username password : String) : Except AuthError AuthResponse :=
  match findUser s username with
  | none => Except.error AuthError.Unauthorized
  | some row =>
    if row.is_active && verifyPassword password row.hashed_password then
      Except.ok (respOfRow key now lifetime row)
    else
      Except.error AuthError.Unauthorized

/-- Modelled from the spec: Authenticate (spec §4.1).  `Unauthorized` when
the signature does not match the claims under the service key; `Expired`
when the current time is past the embedded expiry; otherwise resolves to the
embedded subject and role. -/
def authenticate (key : String) (now : Nat) (tok : Token) :
    Except AuthError (Nat × String) :=
  if !(tok.sig == sign key (encodeClaims tok.sub tok.role tok.iat tok.exp)) then
    Except.error AuthError.Unauthorized
  else if tok.exp < now then
    Except.error AuthError.Expired
  else
    Except.ok (tok.sub, tok.role)

/-- Modelled from the spec: Authorize (spec §4.1).  Admits when the required
set is empty or contains the token's role; otherwise `Forbidden`. -/
def authorize (role : String) (requiredRoles : List String) :
    Except AuthError Unit :=
  if requiredRoles.isEmpty || requiredRoles.contains role then
    Except.ok ()
  else
    Except.error AuthError.Forbidden

/-- One invocation of any of the four Auth Service operations, with all of
its inputs. -/
inductive AuthOp where
  | opRegister (key : String) (now lifetime : Nat) (salt : String) (req : RegisterRequest)
  | opLogin (key : String) (now lifetime : Nat) (username password : String)
  | opAuthenticate (key : String) (now : Nat) (tok : Token)
  | opAuthorize (role : String) (requiredRoles : List String)

/-- Effect of an operation on the Credential Store.  Only Register writes;
Login, Authenticate and Authorize persist nothing (spec §4.1 side effects). -/
def applyOp (s : Store) : AuthOp → Store
  | AuthOp.opRegister key now lifetime salt req => (register key now lifetime salt s req).1
  | AuthOp.opLogin _ _ _ _ _ => s
  | AuthOp.opAuthenticate _ _ _ => s
  | AuthOp.opAuthorize _ _ => s

/-- Credential Store states reachable from the empty table through the Auth
Service operations. -/
inductive Reachable : Store → Prop
  | init : Reachable []
  | step (s : Store) (op : AuthOp) : Reachable s → Reachable (applyOp s op)

/-- Usernames and emails are globally unique across the rows of a store. -/
def uniqueIdentifiers (s : Store) : Prop :=
  s.Pairwise fun a b => a.username ≠ b.username ∧ a.email ≠ b.email

/-- Every row's role belongs to the fixed enumeration. -/
def rolesInEnum (s : Store) : Prop :=
  ∀ r ∈ s, r.role ∈ validRoles

/-! Frontend model, from `pages/dashboard.tsx` and `pages/index.tsx`. -/

/-- Browser local storage as seen by the client: the `token` and `user` keys
(`localStorage.getItem` returns the stored string or null). -/
structure LocalStorage where
  token : Option String
  user : Option String
deriving DecidableEq, Repr

/-- JavaScript truthiness of a `localStorage.getItem` result: null and the
empty string are falsy. -/
def jsFalsy : Option String → Bool
  | none => true
  | some s => s == ""

/-- Rendering of a possibly-null token into a template literal, as in
the `Bearer ${token}` interpolation (JavaScript renders null as "null"). -/
def renderToken : Option String → String
  | some t => t
  | none => "null"

/-- An outgoing HTTP GET request with its Authorization header value. -/
structure ApiRequest where
  url : String
  authHeader : String
deriving DecidableEq, Repr

/-- The three protected fetches of `loadData` (`dashboard.tsx` lines 28-44):
staff presence, patients and tasks, each with the
`Authorization: Bearer <token>` header built from the stored token. -/
def loadData (apiBase : String) (tok : Option String) : List ApiRequest :=
  [⟨apiBase ++ "/staff/presence", "Bearer " ++ renderToken tok⟩,
   ⟨apiBase ++ "/patients", "Bearer " ++ renderToken tok⟩,
   ⟨apiBase ++ "/tasks", "Bearer " ++ renderToken tok⟩]

/-- Observable outcome of the dashboard mount effect: where the router was
pushed (if anywhere), the data requests issued, and the user JSON loaded
into component state. -/
structure MountResult where
  navTarget : Option String
  requests : List ApiRequest
  userLoaded : Option String
deriving DecidableEq, Repr

/-- The dashboard mount effect (`dashboard.tsx` lines 15-26): read `token`
and `user` from local storage; if either is falsy, push the router to "/"
and return without fetching; otherwise set the user and call `loadData`. -/
def dashboardMount (apiBase : String) (st : LocalStorage) : MountResult :=
  if jsFalsy st.token || jsFalsy st.user then
    ⟨some "/", [], none⟩
  else
    ⟨none, loadData apiBase st.token, st.user⟩

/-- The response body of a login/register call as used by `handleSubmit`:
the `token` field (absent when the key is missing from the JSON) and the
full serialized body that gets stored under the `user` key. -/
structure ApiData where
  token : Option String
  raw : String
deriving DecidableEq, Repr

/-- JavaScript truthiness of `response.data.token`: present and non-empty. -/
def tokenTruthy (d : ApiData) : Bool :=
  match d.token with
  | some t => !(t == "")
  | none => false

/-- Observable outcome of `handleSubmit`: local storage afterwards, where
the router was pushed (if anywhere), and the error message displayed. -/
structure SubmitResult where
  storage : LocalStorage
  navTarget : Option String
  errorMsg : String
deriving DecidableEq, Repr

/-- The submit handler (`index.tsx` lines 25-41).  On an HTTP-level failure
the caught error's detail (or a generic message) is displayed and nothing
else happens.  On a response, if `response.data.token` is truthy the token
and the serialized body are written to local storage and the router is
pushed to /dashboard; otherwise an error message depending on the login /
register mode is displayed and local storage is untouched. -/
def handleSubmit (isLogin : Bool) (st : LocalStorage)
    (resp : Except (Option String) ApiData) : SubmitResult :=
  match resp with
  | Except.error detail =>
    ⟨st, none, match detail with
      | some d => d
      | none => "An error occurred"⟩
  | Except.ok d =>
    if tokenTruthy d then
      ⟨⟨d.token, some d.raw⟩, some "/dashboard", ""⟩
    else
      ⟨st, none, if isLogin then "Invalid credentials" else "Registration failed"⟩

/-! Theorems. -/

/-- C2: for every state of the Credential Store and every Register call whose
username or email already exists, the call fails with Conflict and the store
is exactly unchanged. -/
theorem register_conflict_leaves_store_unchanged (key : String) (now lifetime : Nat)
    (salt : String) (s : Store) (req : RegisterRequest)
    (h : usernameExists s req.username = true ∨ emailExists s req.email = true) :
    register key now lifetime salt s req = (s, Except.error AuthError.Conflict) := by
  unfold register
  rcases h with h | h <;> simp [h]

/-- Witness for C2: registering a username that already exists in a
one-row store fails with Conflict and leaves the store unchanged. -/
theorem register_conflict_leaves_store_unchanged_witness :
    register "k" 0 3600 "nb" [⟨1, "alice", "alice@x.com", hashPassword "na" "pw", "nurse", "Alice", true⟩]
      ⟨"alice", "other@x.com", "pw2", "Alice B", "doctor"⟩
      = ([⟨1, "alice", "alice@x.com", hashPassword "na" "pw", "nurse", "Alice", true⟩],
          Except.error AuthError.Conflict) :=
  register_conflict_leaves_store_unchanged "k" 0 3600 "nb"
    [⟨1, "alice", "alice@x.com", hashPassword "na" "pw", "nurse", "Alice", true⟩]
    ⟨"alice", "other@x.com", "pw2", "Alice B", "doctor"⟩ (Or.inl rfl)

/-- C3: a login with an existing active username and a wrong password and a
login with a nonexistent username both fail with the same Unauthorized
result, with identical outputs. -/
theorem login_failures_indistinguishable (key : String) (now lifetime : Nat)
    (s : Store) (u1 pw1 u2 pw2 : String) (row : UserRow)
    (h1 : findUser s u1 = some row) (hact : row.is_active = true)
    (hbad : verifyPassword pw1 row.hashed_password = false)
    (h2 : findUser s u2 = none) :
    login key now lifetime s u1 pw1 = Except.error AuthError.Unauthorized ∧
    login key now lifetime s u2 pw2 = Except.error AuthError.Unauthorized ∧
    login key now lifetime s u1 pw1 = login key now lifetime s u2 pw2 := by
  unfold login
  rw [h1, h2]
  simp [hact, hbad]

/-- Witness for C3: wrong password for alice and a login as nonexistent bob
produce the same Unauthorized output. -/
theorem login_failures_indistinguishable_witness :
    login "k" 0 3600 [⟨1, "alice", "alice@x.com", hashPassword "na" "pw", "nurse", "Alice", true⟩]
      "alice" "wrong" = Except.error AuthError.Unauthorized ∧
    login "k" 0 3600 [⟨1, "alice", "alice@x.com", hashPassword "na" "pw", "nurse", "Alice", true⟩]
      "bob" "pw" = Except.error AuthError.Unauthorized ∧
    login "k" 0 3600 [⟨1, "alice", "alice@x.com", hashPassword "na" "pw", "nurse", "Alice", true⟩]
      "alice" "wrong"
      = login "k" 0 3600 [⟨1, "alice", "alice@x.com", hashPassword "na" "pw", "nurse", "Alice", true⟩]
          "bob" "pw" :=
  login_failures_indistinguishable "k" 0 3600
    [⟨1, "alice", "alice@x.com", hashPassword "na" "pw", "nurse", "Alice", true⟩]
    "alice" "wrong" "bob" "pw"
    ⟨1, "alice", "alice@x.com", hashPassword "na" "pw", "nurse", "Alice", true⟩
    rfl rfl rfl rfl

/-- C4: a token issued at time T with lifetime L is accepted at
T + (L − ε) and rejected with Expired at T + (L + ε) for every ε > 0, and
Authenticate fails with Expired exactly when the current time is past the
embedded expiry. -/
theorem token_expiry_boundary (key : String) (sub : Nat) (role : String)
    (T L eps : Nat) (heps : 0 < eps) :
    authenticate key (T + (L - eps)) (mkToken key sub role T L) = Except.ok (sub, role) ∧
    authenticate key (T + (L + eps)) (mkToken key sub role T L)
      = Except.error AuthError.Expired ∧
    ∀ now, (authenticate key now (mkToken key sub role T L)
      = Except.error AuthError.Expired ↔ T + L < now) := by
  refine ⟨?_, ?_, ?_⟩
  · simp only [authenticate, mkToken]
    rw [if_neg (by simp), if_neg (by omega)]
  · simp only [authenticate, mkToken]
    rw [if_neg (by simp), if_pos (by omega)]
  · intro now
    simp only [authenticate, mkToken]
    rw [if_neg (by simp)]
    by_cases h : T + L < now
    · simp [h]
    · simp [h]

/-- Witness for C4: a token issued at time 100 with lifetime 50 is accepted
at 149 and rejected at 151, and expires exactly past time 150. -/
theorem token_expiry_boundary_witness :
    authenticate "k" (100 + (50 - 1)) (mkToken "k" 7 "nurse" 100 50) = Except.ok (7, "nurse") ∧
    authenticate "k" (100 + (50 + 1)) (mkToken "k" 7 "nurse" 100 50)
      = Except.error AuthError.Expired ∧
    ∀ now, (authenticate "k" now (mkToken "k" 7 "nurse" 100 50)
      = Except.error AuthError.Expired ↔ 100 + 50 < now) :=
  token_expiry_boundary "k" 7 "nurse" 100 50 1 (by decide)

/-- C8: every protected data request of the dashboard's loadData carries the
header Authorization: Bearer followed by the stored token. -/
theorem loadData_sends_bearer_token (apiBase t : String) :
    ∀ r ∈ loadData apiBase (some t), r.authHeader = "Bearer " ++ t := by
  intro r hr
  simp only [loadData, renderToken, List.mem_cons, List.not_mem_nil, or_false] at hr
  rcases hr with h | h | h <;> subst h <;> rfl

/-- Witness for C8: the patients fetch carries the Bearer header with the
stored token. -/
theorem loadData_sends_bearer_token_witness :
    (⟨"/api" ++ "/patients", "Bearer " ++ renderToken (some "tok123")⟩ : ApiRequest) ∈
      loadData "/api" (some "tok123") ∧
    (⟨"/api" ++ "/patients", "Bearer " ++ renderToken (some "tok123")⟩ : ApiRequest).authHeader
      = "Bearer " ++ "tok123" :=
  ⟨by simp [loadData],
    loadData_sends_bearer_token "/api" "tok123"
      ⟨"/api" ++ "/patients", "Bearer " ++ renderToken (some "tok123")⟩ (by simp [loadData])⟩

/-- C9: on dashboard mount, a missing token or user in local storage causes a
navigation to "/" with no data requests; the data requests are issued only
when both values are present. -/
theorem dashboard_mount_requires_credentials (apiBase : String) (st : LocalStorage) :
    ((st.token = none ∨ st.user = none) →
      dashboardMount apiBase st = ⟨some "/", [], none⟩) ∧
    ((dashboardMount apiBase st).requests ≠ [] →
      ∃ t u, st.token = some t ∧ st.user = some u ∧
        (dashboardMount apiBase st).requests = loadData apiBase (some t) ∧
        (dashboardMount apiBase st).navTarget = none) := by
  constructor
  · intro h
    rcases h with h | h <;> simp [dashboardMount, jsFalsy, h]
  · intro h
    rcases hTok : st.token with _ | t
    · simp [dashboardMount, jsFalsy, hTok] at h
    rcases hUsr : st.user with _ | u
    · simp [dashboardMount, jsFalsy, hUsr] at h
    refine ⟨t, u, rfl, rfl, ?_⟩
    by_cases hft : jsFalsy st.token = true
    · simp [dashboardMount, hft] at h
    by_cases hfu : jsFalsy st.user = true
    · simp [dashboardMount, hfu] at h
    rw [hTok] at hft
    rw [hUsr] at hfu
    simp [dashboardMount, hTok, hUsr, hft, hfu]

/-- Witness for C9: a missing token navigates home with no requests, and a
populated storage issues exactly the loadData requests. -/
theorem dashboard_mount_requires_credentials_witness :
    dashboardMount "/api" ⟨none, some "u"⟩ = ⟨some "/", [], none⟩ ∧
    (∃ t u, (⟨some "tok", some "u"⟩ : LocalStorage).token = some t ∧
      (⟨some "tok", some "u"⟩ : LocalStorage).user = some u ∧
      (dashboardMount "/api" ⟨some "tok", some "u"⟩).requests = loadData "/api" (some t) ∧
      (dashboardMount "/api" ⟨some "tok", some "u"⟩).navTarget = none) :=
  ⟨(dashboard_mount_requires_credentials "/api" ⟨none, some "u"⟩).1 (Or.inl rfl),
    (dashboard_mount_requires_credentials "/api" ⟨some "tok", some "u"⟩).2
      (by simp [dashboardMount, jsFalsy, loadData])⟩

/-- C10: after a login or register response, the client navigates to
/dashboard iff the response body carries a truthy token field, in which case
the token and the serialized body are written to local storage; when the
token field is absent, local storage is untouched and a non-empty error
message is displayed. -/
theorem submit_navigates_iff_token (isLogin : Bool) (st : LocalStorage) (d : ApiData) :
    ((handleSubmit isLogin st (Except.ok d)).navTarget = some "/dashboard"
        ↔ tokenTruthy d = true) ∧
    (tokenTruthy d = true →
      (handleSubmit isLogin st (Except.ok d)).storage = ⟨d.token, some d.raw⟩) ∧
    (d.token = none →
      (handleSubmit isLogin st (Except.ok d)).storage = st ∧
      (handleSubmit isLogin st (Except.ok d)).errorMsg ≠ "") := by
  by_cases h : tokenTruthy d = true
  · refine ⟨by simp [handleSubmit, h], fun _ => by simp [handleSubmit, h], ?_⟩
    intro hnone
    rw [tokenTruthy, hnone] at h
    cases h
  · refine ⟨by simp [handleSubmit, h], fun ht => absurd ht h, ?_⟩
    intro _
    refine ⟨by simp [handleSubmit, h], ?_⟩
    cases isLogin <;> simp [handleSubmit, h]

/-- Witness for C10: a truthy token is stored and navigation goes to
/dashboard, while a response without a token leaves storage untouched and
shows an error. -/
theorem submit_navigates_iff_token_witness :
    (handleSubmit true ⟨none, none⟩ (Except.ok ⟨some "tok", "body"⟩)).storage
        = ⟨some "tok", some "body"⟩ ∧
    ((handleSubmit true ⟨none, none⟩ (Except.ok ⟨none, "body"⟩)).storage = ⟨none, none⟩ ∧
      (handleSubmit true ⟨none, none⟩ (Except.ok ⟨none, "body"⟩)).errorMsg ≠ "") :=
  ⟨(submit_navigates_iff_token true ⟨none, none⟩ ⟨some "tok", "body"⟩).2.1 rfl,
    (submit_navigates_iff_token true ⟨none, none⟩ ⟨none, "body"⟩).2.2 rfl⟩

/-- Shared helper: when all checks pass, Register inserts exactly the fresh
row and returns the token plus public projection. -/
theorem register_success (key : String) (now lifetime : Nat) (salt : String)
    (s : Store) (req : RegisterRequest)
    (hu : usernameExists s req.username = false)
    (he : emailExists s req.email = false)
    (hfields : requiredFieldsPresent req = true)
    (hrole : validRoles.contains req.role = true) :
    register key now lifetime salt s req
      = (s ++ [mkNewRow salt s req],
          Except.ok (respOfRow key now lifetime (mkNewRow salt s req))) := by
  unfold register
  rw [if_neg (by rw [hu, he]; decide), if_neg (by rw [hfields, hrole]; decide)]

/-- Shared helper: the Register post-state is the old store (on any failure)
or the old store with the fresh row appended after all checks passed. -/
theorem register_store_shape (key : String) (now lifetime : Nat) (salt : String)
    (s : Store) (req : RegisterRequest) :
    (register key now lifetime salt s req).1 = s ∨
    (usernameExists s req.username = false ∧ emailExists s req.email = false ∧
      validRoles.contains req.role = true ∧
      (register key now lifetime salt s req).1 = s ++ [mkNewRow salt s req]) := by
  unfold register
  by_cases h1 : (usernameExists s req.username || emailExists s req.email) = true
  · left
    rw [if_pos h1]
  · by_cases h2 : (!(requiredFieldsPresent req) || !(validRoles.contains req.role)) = true
    · left
      rw [if_neg h1, if_pos h2]
    · right
      simp only [Bool.or_eq_true, not_or, Bool.not_eq_true] at h1

      simp only [Bool.or_eq_true, Bool.not_eq_true', not_or, Bool.not_eq_false] at h2
      refine ⟨h1.1, h1.2, h2.2, ?_⟩
      rw [if_neg (by rw [h1.1, h1.2]; decide), if_neg (by rw [h2.1, h2.2]; decide)]

/-- Shared helper: looking up a freshly appended username that was absent
from the old store finds exactly the new row. -/
theorem findUser_append_fresh (s : Store) (row : UserRow)
    (h : usernameExists s row.username = false) :
    findUser (s ++ [row]) row.username = some row := by
  rw [findUser, List.find?_append]
  have hs : s.find? (fun r => r.username == row.username) = none := by
    rw [List.find?_eq_none]
    intro x hx
    rw [usernameExists, List.any_eq_false] at h
    simpa using h x hx
  rw [hs]
  simp [List.find?]

/-- C1: a valid registration with fresh username and email succeeds, and a
subsequent login with the same credentials succeeds and returns a token
whose embedded role equals the registered role. -/
theorem register_then_login_returns_registered_role (key : String)
    (now lifetime now2 : Nat) (salt : String) (s : Store) (req : RegisterRequest)
    (hfields : requiredFieldsPresent req = true)
    (hrole : validRoles.contains req.role = true)
    (hu : usernameExists s req.username = false)
    (he : emailExists s req.email = false) :
    (register key now lifetime salt s req).2
      = Except.ok (respOfRow key now lifetime (mkNewRow salt s req)) ∧
    login key now2 lifetime (register key now lifetime salt s req).1
        req.username req.password
      = Except.ok (respOfRow key now2 lifetime (mkNewRow salt s req)) ∧
    (respOfRow key now2 lifetime (mkNewRow salt s req)).token.role = req.role := by
  have hreg := register_success key now lifetime salt s req hu he hfields hrole
  refine ⟨by rw [hreg], ?_, rfl⟩
  rw [hreg]
  have hf : findUser (s ++ [mkNewRow salt s req]) req.username
      = some (mkNewRow salt s req) :=
    findUser_append_fresh s (mkNewRow salt s req) hu
  unfold login
  rw [hf]
  simp [mkNewRow, verifyPassword, hashPassword, mixHash]

/-- Witness for C1: registering alice as a nurse in an empty store and then
logging in as alice returns a token carrying role nurse. -/
theorem register_then_login_returns_registered_role_witness :
    (register "k" 0 3600 "na" []
        ⟨"alice", "alice@x.com", "Secret123", "Alice", "nurse"⟩).2
      = Except.ok (respOfRow "k" 0 3600
          (mkNewRow "na" [] ⟨"alice", "alice@x.com", "Secret123", "Alice", "nurse"⟩)) ∧
    login "k" 10 3600
        (register "k" 0 3600 "na" []
          ⟨"alice", "alice@x.com", "Secret123", "Alice", "nurse"⟩).1
        "alice" "Secret123"
      = Except.ok (respOfRow "k" 10 3600
          (mkNewRow "na" [] ⟨"alice", "alice@x.com", "Secret123", "Alice", "nurse"⟩)) ∧
    (respOfRow "k" 10 3600
        (mkNewRow "na" [] ⟨"alice", "alice@x.com", "Secret123", "Alice", "nurse"⟩)).token.role
      = "nurse" :=
  register_then_login_returns_registered_role "k" 0 3600 10 "na" []
    ⟨"alice", "alice@x.com", "Secret123", "Alice", "nurse"⟩ rfl rfl rfl rfl

/-- C5: every reachable Credential Store state has globally unique usernames
and globally unique emails; all four operations preserve this. -/
theorem reachable_unique_identifiers (s : Store) (h : Reachable s) :
    uniqueIdentifiers s := by
  induction h with
  | init => exact List.Pairwise.nil
  | step s op _ ih =>
    cases op with
    | opRegister key now lifetime salt req =>
      show uniqueIdentifiers (register key now lifetime salt s req).1
      rcases register_store_shape key now lifetime salt s req with heq | ⟨hu, he, _, heq⟩
      · rw [heq]; exact ih
      · rw [heq]
        rw [uniqueIdentifiers, List.pairwise_append]
        refine ⟨ih, List.pairwise_singleton _ _, ?_⟩
        intro a ha b hb
        rw [List.mem_singleton] at hb
        subst hb
        rw [usernameExists, List.any_eq_false] at hu
        rw [emailExists, List.any_eq_false] at he
        constructor
        · have hx := hu a ha
          simp only [mkNewRow]
          simpa using hx
        · have hx := he a ha
          simp only [mkNewRow]
          simpa using hx
    | opLogin key now lifetime u p => exact ih
    | opAuthenticate key now tok => exact ih
    | opAuthorize role rs => exact ih

/-- Witness for C5: the store reached by one successful registration from the
empty table has unique identifiers. -/
theorem reachable_unique_identifiers_witness :
    uniqueIdentifiers (applyOp [] (AuthOp.opRegister "k" 0 3600 "na"
      ⟨"alice", "alice@x.com", "pw", "Alice", "nurse"⟩)) :=
  reachable_unique_identifiers _
    (Reachable.step [] (AuthOp.opRegister "k" 0 3600 "na"
      ⟨"alice", "alice@x.com", "pw", "Alice", "nurse"⟩) Reachable.init)

/-- C6: in every reachable Credential Store state, every row's role belongs
to the fixed enumeration admin, doctor, nurse, receptionist, staff; no
operation stores any other role value. -/
theorem reachable_roles_in_enum (s : Store) (h : Reachable s) :
    rolesInEnum s := by
  induction h with
  | init => intro r hr; cases hr
  | step s op _ ih =>
    cases op with
    | opRegister key now lifetime salt req =>
      show rolesInEnum (register key now lifetime salt s req).1
      rcases register_store_shape key now lifetime salt s req with heq | ⟨_, _, hrole, heq⟩
      · rw [heq]; exact ih
      · rw [heq]
        intro r hr
        rw [List.mem_append] at hr
        rcases hr with hr | hr
        · exact ih r hr
        · rw [List.mem_singleton] at hr
          subst hr
          show (mkNewRow salt s req).role ∈ validRoles
          simp only [mkNewRow]
          simpa using hrole
    | opLogin key now lifetime u p => exact ih
    | opAuthenticate key now tok => exact ih
    | opAuthorize role rs => exact ih

/-- Witness for C6: the store reached by one successful registration from the
empty table carries only roles of the enumeration. -/
theorem reachable_roles_in_enum_witness :
    rolesInEnum (applyOp [] (AuthOp.opRegister "k" 0 3600 "nb"
      ⟨"bob", "bob@x.com", "pw", "Bob", "doctor"⟩)) :=
  reachable_roles_in_enum _
    (Reachable.step [] (AuthOp.opRegister "k" 0 3600 "nb"
      ⟨"bob", "bob@x.com", "pw", "Bob", "doctor"⟩) Reachable.init)

/-- C7: every successful Register or Login response is the public projection
of a user row plus a token, and that projection is unchanged when the stored
password hash is replaced by anything else — the hash is never returned. -/
theorem responses_never_contain_hash :
    (∀ (key : String) (now lifetime : Nat) (salt : String) (s : Store)
        (req : RegisterRequest) (resp : AuthResponse),
      (register key now lifetime salt s req).2 = Except.ok resp →
      ∃ row : UserRow, resp = respOfRow key now lifetime row ∧
        ∀ h : HashedPassword,
          respOfRow key now lifetime { row with hashed_password := h }
            = respOfRow key now lifetime row) ∧
    (∀ (key : String) (now lifetime : Nat) (s : Store) (u pw : String)
        (resp : AuthResponse),
      login key now lifetime s u pw = Except.ok resp →
      ∃ row : UserRow, resp = respOfRow key now lifetime row ∧
        ∀ h : HashedPassword,
          respOfRow key now lifetime { row with hashed_password := h }
            = respOfRow key now lifetime row) := by
  constructor
  · intro key now lifetime salt s req resp hok
    unfold register at hok
    by_cases h1 : (usernameExists s req.username || emailExists s req.email) = true
    · rw [if_pos h1] at hok
      simp at hok
    · rw [if_neg h1] at hok
      by_cases h2 : (!(requiredFieldsPresent req) || !(validRoles.contains req.role)) = true
      · rw [if_pos h2] at hok
        simp at hok
      · rw [if_neg h2] at hok
        simp only at hok
        refine ⟨mkNewRow salt s req, ?_, fun h => rfl⟩
        exact (Except.ok.inj hok).symm
  · intro key now lifetime s u pw resp hok
    unfold login at hok
    rcases hfind : findUser s u with _ | row
    · rw [hfind] at hok
      simp at hok
    · rw [hfind] at hok
      have hok2 : (if (row.is_active && verifyPassword pw row.hashed_password) = true
          then Except.ok (respOfRow key now lifetime row)
          else Except.error AuthError.Unauthorized) = Except.ok resp := hok
      by_cases hc : (row.is_active && verifyPassword pw row.hashed_password) = true
      · rw [if_pos hc] at hok2
        refine ⟨row, ?_, fun h => rfl⟩
        exact (Except.ok.inj hok2).symm
      · rw [if_neg hc] at hok2
        simp at hok2

/-- Witness for C7: the concrete responses of a successful registration and a
successful login are hash-independent public projections. -/
theorem responses_never_contain_hash_witness :
    (∃ row : UserRow,
      respOfRow "k" 0 3600
          (mkNewRow "na" [] ⟨"carol", "carol@x.com", "pw", "Carol", "staff"⟩)
        = respOfRow "k" 0 3600 row ∧
      ∀ h : HashedPassword,
        respOfRow "k" 0 3600 { row with hashed_password := h }
          = respOfRow "k" 0 3600 row) ∧
    (∃ row : UserRow,
      respOfRow "k" 5 3600
          ⟨1, "alice", "alice@x.com", hashPassword "na" "pw", "nurse", "Alice", true⟩
        = respOfRow "k" 5 3600 row ∧
      ∀ h : HashedPassword,
        respOfRow "k" 5 3600 { row with hashed_password := h }
          = respOfRow "k" 5 3600 row) :=
  ⟨responses_never_contain_hash.1 "k" 0 3600 "na" []
      ⟨"carol", "carol@x.com", "pw", "Carol", "staff"⟩
      (respOfRow "k" 0 3600
        (mkNewRow "na" [] ⟨"carol", "carol@x.com", "pw", "Carol", "staff"⟩)) rfl,
    responses_never_contain_hash.2 "k" 5 3600
      [⟨1, "alice", "alice@x.com", hashPassword "na" "pw", "nurse", "Alice", true⟩]
      "alice" "pw"
      (respOfRow "k" 5 3600
        ⟨1, "alice", "alice@x.com", hashPassword "na" "pw", "nurse", "Alice", true⟩) rfl⟩

end MediPresence
